import Mathlib

/-!
Verification development for the pricing-computation core of the
`catalog` repository (`src/core/schemas/prices_schema.py` and
`src/core/crud/prices/prices.py`).

The Python source computes the quote total in IEEE-754 binary64
arithmetic (the `/ 100` divisions and the subsequent products and sums
are float operations on values obtained from arbitrary-precision
integers). The embedding models a finite double exactly as a pair
`m * 2^e` of integers (`Float64`), with every operation correctly
rounded to 53 significant bits, round-half-to-even, exactly as IEEE
prescribes; results at or beyond `2^1024` become `none`, matching that
the program either raises `OverflowError` or propagates an infinity that
the int-typed result field then rejects — in both cases no value is
returned. Subnormals need no modelling: every nonzero value the pricing
pipeline can produce exceeds `2^-60` in magnitude. The exact rational
value of the formula (`computeSum`) is kept alongside for the spec-side
comparisons. Pydantic models are embedded as Lean structures, and
pydantic validation of a JSON document is embedded as an explicit parser
over a small JSON value type, mirroring the required/defaulted fields of
the source models. Fallible Python paths (validation errors, failed int
coercion, KeyError, overflow) are embedded with `Option`.
-/

set_option maxRecDepth 20000

/-- A JSON value, as far as the pricing documents need: integers,
strings and objects (an object is an association list of fields). -/
inductive JValue where
  | num (n : ℤ)
  | str (s : String)
  | obj (fields : List (String × JValue))

/-- Dictionary lookup on an object's field list (first match wins),
embedding Python's `d[key]` / pydantic's field extraction. -/
def getField : List (String × JValue) → String → Option JValue
  | [], _ => none
  | (k, v) :: rest, key => if k = key then some v else getField rest key

/-- Embeds `class ottomanFlat(BaseSchema): count: int = 0; price: int = 0`
from `core/schemas/prices_schema.py`. -/
structure ottomanFlat where
  count : ℤ
  price : ℤ
deriving DecidableEq, Repr

/-- Embeds `class mechanismFlat(BaseSchema): count: int = 0; price: int = 0`. -/
structure mechanismFlat where
  count : ℤ
  price : ℤ
deriving DecidableEq, Repr

/-- Embeds `class fabricPct(BaseSchema): category: int = 0`. -/
structure fabricPct where
  category : ℤ
deriving DecidableEq, Repr

/-- Embeds `class extras(BaseSchema)` with required submodel fields
`ottomanFlat` and `mechanismFlat`. -/
structure extras where
  ottomanFlat : ottomanFlat
  mechanismFlat : mechanismFlat
deriving DecidableEq, Repr

/-- Embeds `class parameters(BaseSchema)` with required submodel fields
`extras` and `fabricPct` and defaulted integers `marginPct`, `pricePerMeter`. -/
structure parameters where
  extras : extras
  fabricPct : fabricPct
  marginPct : ℤ
  pricePerMeter : ℤ
deriving DecidableEq, Repr

/-- Embeds `class PriceJsonSchema(BaseSchema): parameters: parameters`. -/
structure PriceJsonSchema where
  parameters : parameters
deriving DecidableEq, Repr

/-- Embeds `class PriceJsonSchemaSum(BaseSchema)`: the quote result, whose
`sum` field is declared `int` in the source. -/
structure PriceJsonSchemaSum where
  parameters : parameters
  sum : ℤ
deriving DecidableEq, Repr

/-- Pydantic validation of a single `int` leaf field with default `d`:
an absent field takes the default, a present field must be an integer. -/
def parseIntField (fs : List (String × JValue)) (key : String) (d : ℤ) : Option ℤ :=
  match getField fs key with
  | none => some d
  | some (JValue.num n) => some n
  | some _ => none

/-- Pydantic validation of a required submodel field: an absent field is a
validation error, a present one is validated by `sub`. -/
def parseRequired {α : Type} (fs : List (String × JValue)) (key : String)
    (sub : JValue → Option α) : Option α :=
  match getField fs key with
  | none => none
  | some v => sub v

/-- Validation of the `ottomanFlat` model (both leaves default to 0). -/
def parseOttomanFlat : JValue → Option ottomanFlat
  | JValue.obj fs => do
    let count ← parseIntField fs "count" 0
    let price ← parseIntField fs "price" 0
    pure ⟨count, price⟩
  | _ => none

/-- Validation of the `mechanismFlat` model (both leaves default to 0). -/
def parseMechanismFlat : JValue → Option mechanismFlat
  | JValue.obj fs => do
    let count ← parseIntField fs "count" 0
    let price ← parseIntField fs "price" 0
    pure ⟨count, price⟩
  | _ => none

/-- Validation of the `fabricPct` model (`category` defaults to 0). -/
def parseFabricPct : JValue → Option fabricPct
  | JValue.obj fs => do
    let category ← parseIntField fs "category" 0
    pure ⟨category⟩
  | _ => none

/-- Validation of the `extras` model: `ottomanFlat` and `mechanismFlat`
are required submodels. -/
def parseExtras : JValue → Option extras
  | JValue.obj fs => do
    let o ← parseRequired fs "ottomanFlat" parseOttomanFlat
    let m ← parseRequired fs "mechanismFlat" parseMechanismFlat
    pure ⟨o, m⟩
  | _ => none

/-- Validation of the `parameters` model: `extras` and `fabricPct` are
required submodels, `marginPct` and `pricePerMeter` default to 0. -/
def parseParameters : JValue → Option parameters
  | JValue.obj fs => do
    let e ← parseRequired fs "extras" parseExtras
    let f ← parseRequired fs "fabricPct" parseFabricPct
    let m ← parseIntField fs "marginPct" 0
    let p ← parseIntField fs "pricePerMeter" 0
    pure ⟨e, f, m, p⟩
  | _ => none

/-- Validation of the request envelope `PriceJsonSchema`: the top-level
`parameters` wrapper is required. -/
def parsePriceJsonSchema : JValue → Option PriceJsonSchema
  | JValue.obj fs => do
    let p ← parseRequired fs "parameters" parseParameters
    pure ⟨p⟩
  | _ => none

/-- The exact rational value of the arithmetic expression assigned to
`sum` in `sum_price` (and, textually identical, in `get_all_prices`) in
`core/crud/prices/prices.py` — the spec's formula with the divisions by
100 taken exactly. The float evaluation the program performs is
`computeSumF` below; the two agree whenever every intermediate rounding
is exact (as at Scenario A and Scenario E), and differ where it is not
(e.g. exact total 242 versus float total 242.00000000000003):

```
(param.pricePerMeter * ((param.marginPct + 100) / 100)
  + (param.extras.ottomanFlat.count * param.extras.ottomanFlat.price
     + param.extras.mechanismFlat.count * param.extras.mechanismFlat.price))
* ((param.fabricPct.category + 100) / 100)
```
-/
def computeSum (param : parameters) : ℚ :=
  ((param.pricePerMeter : ℚ) * (((param.marginPct : ℚ) + 100) / 100)
    + ((param.extras.ottomanFlat.count : ℚ) * (param.extras.ottomanFlat.price : ℚ)
      + (param.extras.mechanismFlat.count : ℚ) * (param.extras.mechanismFlat.price : ℚ)))
  * (((param.fabricPct.category : ℚ) + 100) / 100)

/-- A finite IEEE-754 binary64 value, represented exactly as `m * 2^e`.
The representation is not required to be normalised; every rounding
operation below produces a mantissa of at most 53 bits (54 at the binade
boundary `2^53`, which still denotes the correct value). -/
structure Float64 where
  m : ℤ
  e : ℤ
deriving DecidableEq, Repr

/-- Bit length of a natural number, with explicit recursion fuel so that
the kernel can evaluate it. The fuel 1500 covers every argument the
pricing pipeline can reach: rounding inputs are pre-checked against the
overflow bound `2^1024`, so the scaled integers handed to `bitlen` stay
far below `2^1500`. -/
def bitlenAux : ℕ → ℕ → ℕ
  | 0, _ => 0
  | fuel + 1, n => if n = 0 then 0 else bitlenAux fuel (n / 2) + 1

/-- Bit length: `bitlen n = ⌊log2 n⌋ + 1` for `n > 0`, and `0` for `0`. -/
def bitlen (n : ℕ) : ℕ := bitlenAux 1500 n

/-- Round the nonnegative rational `P / Q` to an integer, half-to-even —
the tie-breaking rule of IEEE round-to-nearest. -/
def rdivHE (P Q : ℕ) : ℕ :=
  let q := P / Q
  let r := P % Q
  if 2 * r < Q then q
  else if Q < 2 * r then q + 1
  else if q % 2 = 0 then q else q + 1

/-- IEEE overflow: a rounded value of magnitude `≥ 2^1024` is not a
finite double (the program sees `OverflowError` or an infinity). -/
def checkOverflow (x : Float64) : Option Float64 :=
  if x.m = 0 then some ⟨0, 0⟩
  else if 1024 ≤ (bitlen x.m.natAbs : ℤ) - 1 + x.e then none
  else some x

/-- Floor of the base-2 logarithm of the positive rational `n / d`,
computed from the bit lengths of `n` and `d` plus one comparison. -/
def ratLog2 (n d : ℕ) : ℤ :=
  let e0 : ℤ := (bitlen n : ℤ) - (bitlen d : ℤ) - 1
  if 0 ≤ e0 + 1 then
    (if 2 ^ (e0 + 1).toNat * d ≤ n then e0 + 1 else e0)
  else
    (if d ≤ 2 ^ (-(e0 + 1)).toNat * n then e0 + 1 else e0)

/-- Correctly round the positive rational `n / d` (`n, d ≥ 1`) to the
binary64 grid: scale the value so its significand occupies 53 bits and
round half-to-even once. Values already at or beyond `2^1024` are
rejected first (keeping all later integers within `bitlen`'s fuel), and
values that round up to `2^1024` are caught by `checkOverflow`. -/
def roundRatPos (n d : ℕ) : Option Float64 :=
  if d * 2 ^ 1024 ≤ n then none
  else
    let e := ratLog2 n d
    let s := 52 - e
    let P := if 0 ≤ s then n * 2 ^ s.toNat else n
    let Q := if 0 ≤ s then d else d * 2 ^ (-s).toNat
    checkOverflow ⟨(rdivHE P Q : ℤ), e - 52⟩

/-- Correctly round the rational `n / d` (`d ≥ 1`) to binary64. IEEE
rounding is sign-symmetric, so the sign is split off. This models both
CPython's int/int true division and its int-to-float conversion (`d = 1`),
which are correctly rounded. -/
def roundRat (n : ℤ) (d : ℕ) : Option Float64 :=
  if n = 0 then some ⟨0, 0⟩
  else if 0 < n then roundRatPos n.natAbs d
  else (roundRatPos n.natAbs d).map (fun x => ⟨-x.m, x.e⟩)

/-- Correctly round the dyadic `n * 2^e` (`n ≥ 1`) to 53 significant
bits: drop `bitlen n - 53` low bits with one half-to-even rounding. -/
def roundDyadicPos (n : ℕ) (e : ℤ) : Option Float64 :=
  let bits := bitlen n
  if bits ≤ 53 then checkOverflow ⟨(n : ℤ), e⟩
  else checkOverflow ⟨(rdivHE n (2 ^ (bits - 53)) : ℤ), e + (bits - 53)⟩

/-- Correctly round the dyadic `m * 2^e` to binary64 (sign split off). -/
def roundDyadic (m : ℤ) (e : ℤ) : Option Float64 :=
  if m = 0 then some ⟨0, 0⟩
  else if 0 < m then roundDyadicPos m.natAbs e
  else (roundDyadicPos m.natAbs e).map (fun x => ⟨-x.m, x.e⟩)

/-- IEEE double multiplication: the exact product, rounded once. -/
def fmul (x y : Float64) : Option Float64 :=
  roundDyadic (x.m * y.m) (x.e + y.e)

/-- IEEE double addition: align the exponents, add exactly, round once. -/
def fadd (x y : Float64) : Option Float64 :=
  let e := min x.e y.e
  roundDyadic (x.m * 2 ^ (x.e - e).toNat + y.m * 2 ^ (y.e - e).toNat) e

/-- Whether a double is an integer — the condition under which pydantic's
lax mode coerces a Python float into an `int`-declared field. -/
def Float64.isInt (x : Float64) : Bool :=
  if 0 ≤ x.e then true else x.m % ((2 : ℤ) ^ (-x.e).toNat) == 0

/-- The integer value of an integral double. -/
def Float64.toInt (x : Float64) : ℤ :=
  if 0 ≤ x.e then x.m * 2 ^ x.e.toNat else x.m / 2 ^ (-x.e).toNat

/-- The exact rational value of a double. -/
def Float64.toQ (x : Float64) : ℚ :=
  if 0 ≤ x.e then ((x.m * 2 ^ x.e.toNat : ℤ) : ℚ)
  else (x.m : ℚ) / ((2 ^ (-x.e).toNat : ℤ) : ℚ)

/-- The float evaluation the program actually performs for the `sum`
expression of `sum_price` (and `get_all_prices`), operation by operation:

* `(param.marginPct + 100) / 100` — exact integer sum, then int/int true
  division, correctly rounded to a double (CPython `long_true_divide`);
* `param.pricePerMeter * (...)` — the int is converted to a double
  (correct rounding; `OverflowError` if too large), then a float product;
* the extras sub-expression is pure `int * int + int * int` — exact
  integer arithmetic in Python, converted to a double on addition;
* the final factor `(param.fabricPct.category + 100) / 100` is again an
  int/int division, and the closing multiplication a float product.

`none` propagates failure (overflow / infinity: no value is returned). -/
def computeSumF (param : parameters) : Option Float64 := do
  let d1 ← roundRat (param.marginPct + 100) 100
  let ppm ← roundRat param.pricePerMeter 1
  let base ← fmul ppm d1
  let ex ← roundRat (param.extras.ottomanFlat.count * param.extras.ottomanFlat.price
      + param.extras.mechanismFlat.count * param.extras.mechanismFlat.price) 1
  let sub ← fadd base ex
  let d2 ← roundRat (param.fabricPct.category + 100) 100
  fmul sub d2

/-- Embeds `sum_price` from `core/crud/prices/prices.py`: evaluate the
formula on `body.parameters` in float arithmetic and build
`PriceJsonSchemaSum(parameters=..., sum=sum)`; the `sum: int` field
accepts the computed float exactly when it is integral (pydantic raises
a `ValidationError` on a float with a fractional part, and an arithmetic
overflow aborts earlier), so only then is a result returned. The
function never touches the database session it receives. -/
def sum_price (body : PriceJsonSchema) : Option PriceJsonSchemaSum :=
  match computeSumF body.parameters with
  | none => none
  | some x => if x.isInt then some ⟨body.parameters, x.toInt⟩ else none

/-- Scenario A of the spec: `pricePerMeter=100, marginPct=20,
fabricPct.category=10, ottomanFlat={count:2, price:50},
mechanismFlat={count:1, price:30}`. -/
def scenarioA : parameters :=
  { extras := { ottomanFlat := { count := 2, price := 50 }
                mechanismFlat := { count := 1, price := 30 } }
    fabricPct := { category := 10 }
    marginPct := 20
    pricePerMeter := 100 }

/-- Round-half-to-even to the nearest integer, the rounding Python's
built-in `round` applies. -/
def roundHalfEven (q : ℚ) : ℤ :=
  let f := ⌊q⌋
  if q - f < 1 / 2 then f
  else if 1 / 2 < q - f then f + 1
  else if f % 2 = 0 then f else f + 1

/-- Python's `round(x, 2)`: round half-to-even at the second decimal. -/
def pythonRound2 (q : ℚ) : ℚ :=
  (roundHalfEven (q * 100) : ℚ) / 100

/-- Embeds the ORM row `PricingPricingstrategy` from `core/models/models.py`
as far as `get_all_prices` reads it: the `engine` string column and the
`parameters` JSONB column. -/
structure PricingPricingstrategy where
  engine : String
  parameters : JValue

/-- Modelled from the spec: the class `PriceJsonSchemaSumWithName` is
imported and used by `core/crud/prices/prices.py` but defined nowhere in
the repository; per the spec's listing interface it is the enriched
result record with fields `engine: string`, `parameters: PricingParameters`
and `sum: decimal(2)`. -/
structure PriceJsonSchemaSumWithName where
  engine : String
  parameters : parameters
  sum : ℚ
deriving DecidableEq, Repr

/-- Embeds one iteration of the loop in `get_all_prices`: take
`value.parameters["parameters"]` (a `KeyError`, hence failure, if absent),
validate it via `PriceJsonSchema(parameters=dict(param))`, compute the
formula and build the enriched record with `sum=round(sum, 2)`. -/
def listOne (value : PricingPricingstrategy) : Option PriceJsonSchemaSumWithName :=
  match value.parameters with
  | JValue.obj fs => do
    let param ← getField fs "parameters"
    let res ← parseParameters param
    pure { engine := value.engine
           parameters := res
           sum := pythonRound2 (computeSum res) }
  | _ => none

/-- Embeds `get_all_prices` from `core/crud/prices/prices.py`, applied to
the list of rows the `select(PricingPricingstrategy)` query returns: each
row is decoded and enriched in order; any row's failure (a `KeyError` or
pydantic `ValidationError` in the loop) aborts the whole listing. -/
def get_all_prices (rows : List PricingPricingstrategy) :
    Option (List PriceJsonSchemaSumWithName) :=
  rows.mapM listOne

/-- The function `sum_price` with the database session made explicit as state: the
source function receives an `AsyncSession` but its body never invokes it,
so the embedded state threads through untouched. -/
def sum_price_session (db : List PricingPricingstrategy) (body : PriceJsonSchema) :
    List PricingPricingstrategy × Option PriceJsonSchemaSum :=
  (db, sum_price body)

/-- The `parameters` structure with the six leaves given positionally:
pricePerMeter, marginPct, fabricPct.category, ottomanFlat.count,
ottomanFlat.price, mechanismFlat.count, mechanismFlat.price. -/
def mkParams (ppm mp fc oc op mc mpr : ℤ) : parameters :=
  { extras := { ottomanFlat := { count := oc, price := op }
                mechanismFlat := { count := mc, price := mpr } }
    fabricPct := { category := fc }
    marginPct := mp
    pricePerMeter := ppm }

/-- JSON object `{"count": oc, "price": op}`. -/
def mkFlatJson (c p : ℤ) : JValue :=
  JValue.obj [("count", JValue.num c), ("price", JValue.num p)]

/-- The canonical six-leaf `parameters` JSON document of the spec's schema. -/
def mkParametersJson (ppm mp fc oc op mc mpr : ℤ) : JValue :=
  JValue.obj
    [("pricePerMeter", JValue.num ppm),
     ("marginPct", JValue.num mp),
     ("fabricPct", JValue.obj [("category", JValue.num fc)]),
     ("extras", JValue.obj
        [("ottomanFlat", mkFlatJson oc op),
         ("mechanismFlat", mkFlatJson mc mpr)])]

/-- The canonical quote request body: the six-leaf document wrapped in the
required top-level `parameters` key. -/
def mkBodyJson (ppm mp fc oc op mc mpr : ℤ) : JValue :=
  JValue.obj [("parameters", mkParametersJson ppm mp fc oc op mc mpr)]

/-- Top-level names the module `core/schemas/prices_schema.py` binds
(its import plus its class statements), i.e. the attributes available to
`from core.schemas.prices_schema import ...`. -/
def pricesSchemaModuleNames : List String :=
  ["BaseModel", "BaseSchema", "ottomanFlat", "mechanismFlat", "fabricPct",
   "extras", "parameters", "PriceJsonSchema", "PriceJsonSchemaSum",
   "PriceSchema", "PriceCreateSchema", "PriceUpdateSchema", "PriceReadSchema"]

/-- The names line 4 of `core/crud/prices/prices.py` imports from
`core.schemas.prices_schema`. -/
def pricesCrudImportedNames : List String :=
  ["PriceJsonSchema", "PriceJsonSchemaSum", "PriceJsonSchemaSumWithName"]

/-- Python's `from M import n1, ..., nk` at module load succeeds iff every
requested name is an attribute of `M`; otherwise the importing module
fails to load with an `ImportError`. -/
def importSucceeds (imported defined : List String) : Bool :=
  imported.all (fun n => defined.contains n)

/-- Scenario E of the spec: Scenario A with `ottomanFlat.count` set to 0. -/
def scenarioE : parameters := mkParams 100 20 10 0 50 1 30

/-- A structurally valid input whose computed total is not a whole number:
`pricePerMeter=1, marginPct=50`, every other leaf 0 (total `1.5`). -/
def fractionalTotalParams : parameters := mkParams 1 50 0 0 0 0 0

/-- Scenario A with `pricePerMeter` and `ottomanFlat.price` negated. -/
def negativeParams : parameters := mkParams (-100) 20 10 2 (-50) 1 30

/-- As `negativeParams` but with `fabricPct.category = 0`: a negative
input whose float total is exact (every rounding lands on the value). -/
def negativeParamsFabric0 : parameters := mkParams (-100) 20 0 2 (-50) 1 30

/-- A quote request body omitting only the leaf
`extras.mechanismFlat.price`, the other five leaves given positionally. -/
def mkBodyNoMechPrice (ppm mp fc oc op mc : ℤ) : JValue :=
  JValue.obj
    [("parameters", JValue.obj
      [("pricePerMeter", JValue.num ppm),
       ("marginPct", JValue.num mp),
       ("fabricPct", JValue.obj [("category", JValue.num fc)]),
       ("extras", JValue.obj
          [("ottomanFlat", mkFlatJson oc op),
           ("mechanismFlat", JValue.obj [("count", JValue.num mc)])])])]

/-- Scenario C of the spec: the Scenario A request body with
`extras.mechanismFlat.price` omitted. -/
def scenarioCBody : JValue := mkBodyNoMechPrice 100 20 10 2 50 1

/-- Scenario A's six-leaf `parameters` JSON document. -/
def scenarioAJson : JValue := mkParametersJson 100 20 10 2 50 1 30

/-- A stored `parameters` column value wrapping Scenario A's leaf document
in one `parameters` key: the shape `get_all_prices` decodes. -/
def storedScenarioA : JValue := JValue.obj [("parameters", scenarioAJson)]

/-- A stored `parameters` column value wrapping Scenario A's leaf document
in two `parameters` keys. -/
def storedScenarioADouble : JValue :=
  JValue.obj [("parameters", JValue.obj [("parameters", scenarioAJson)])]

theorem computeSum_scenarioA : computeSum scenarioA = 275 := by
  unfold computeSum scenarioA
  norm_num

theorem sum_price_scenarioA : sum_price ⟨scenarioA⟩ = some ⟨scenarioA, 275⟩ := by
  decide

theorem pythonRound2_int (n : ℤ) : pythonRound2 (n : ℚ) = n := by
  have h1 : (n : ℚ) * 100 = ((100 * n : ℤ) : ℚ) := by push_cast; ring
  unfold pythonRound2 roundHalfEven
  rw [h1, Int.floor_intCast]
  norm_num

theorem Float64.toInt_eq_toQ (x : Float64) (h : x.isInt = true) :
    ((x.toInt : ℤ) : ℚ) = x.toQ := by
  unfold Float64.isInt at h
  unfold Float64.toInt Float64.toQ
  by_cases he : 0 ≤ x.e
  · simp [he]
  · simp only [he, if_false] at h ⊢
    have hdvd : ((2 : ℤ) ^ (-x.e).toNat) ∣ x.m :=
      Int.dvd_of_emod_eq_zero (beq_iff_eq.mp h)
    obtain ⟨t, ht⟩ := hdvd
    rw [ht, Int.mul_ediv_cancel_left _ (by positivity)]
    push_cast
    rw [mul_comm, mul_div_assoc, div_self (by positivity), mul_one]

/-- C1: on Scenario A's `PricingParameters` (`pricePerMeter=100`,
`marginPct=20`, `fabricPct.category=10`, `ottomanFlat={count:2,price:50}`,
`mechanismFlat={count:1,price:30}`), the quote operation `sum_price`
computes the total `(100*(1+20/100) + 2*50 + 1*30) * (1+10/100) = 275.00`
and returns it as the result's `sum`. -/
theorem C1_scenarioA_total :
    computeSum scenarioA =
      ((100 : ℚ) * (1 + 20 / 100) + 2 * 50 + 1 * 30) * (1 + 10 / 100) ∧
    computeSum scenarioA = 275 ∧
    sum_price ⟨scenarioA⟩ = some ⟨scenarioA, 275⟩ := by
  refine ⟨?_, computeSum_scenarioA, sum_price_scenarioA⟩
  rw [computeSum_scenarioA]
  norm_num

/-- C2: `core/crud/prices/prices.py` imports `PriceJsonSchemaSumWithName`
from `core.schemas.prices_schema`, but that module defines no such name,
so the `from ... import` on line 4 fails and the module holding
`get_all_prices` can never be loaded. -/
theorem C2_missing_output_class :
    "PriceJsonSchemaSumWithName" ∈ pricesCrudImportedNames ∧
    "PriceJsonSchemaSumWithName" ∉ pricesSchemaModuleNames ∧
    importSucceeds pricesCrudImportedNames pricesSchemaModuleNames = false := by
  decide

/-- C3 counterexample: the Scenario C request body, which omits only
`extras.mechanismFlat.price`, is NOT rejected at input validation:
validation succeeds with the missing leaf defaulted to 0 (every leaf of
the source schema carries a default `= 0`) and the computation is
performed on it, the floats evaluating `(100*1.2 + (2*50 + 1*0)) * 1.1`
to `242.00000000000003` (mantissa `8514618045497345·2^-45`); the quote
then fails only at the result's int-typed `sum` field — refuting the
claim that such a body is rejected with a `ValidationError` identifying
the missing path before any computation. -/
theorem C3_counterexample :
    parsePriceJsonSchema scenarioCBody = some ⟨mkParams 100 20 10 2 50 1 0⟩ ∧
    computeSumF (mkParams 100 20 10 2 50 1 0) = some ⟨8514618045497345, -45⟩ ∧
    sum_price ⟨mkParams 100 20 10 2 50 1 0⟩ = none := by
  refine ⟨rfl, by decide, by decide⟩

/-- C3 amended: every quote request body that omits the leaf
`extras.mechanismFlat.price` (the other five leaves present and
well-typed) passes input validation with that leaf silently defaulted to
0, and the computation proceeds on the defaulted value — there is no
rejection identifying the missing path. At Scenario C's own values the
computed float total `242.00000000000003` afterwards fails the
int-declared `sum` field of the result model, so the quote returns no
value, but through output construction, not input validation. -/
theorem C3_amended_missing_leaf_defaults_to_zero (ppm mp fc oc op mc : ℤ) :
    parsePriceJsonSchema (mkBodyNoMechPrice ppm mp fc oc op mc) =
      some ⟨mkParams ppm mp fc oc op mc 0⟩ ∧
    computeSumF (mkParams 100 20 10 2 50 1 0) = some ⟨8514618045497345, -45⟩ ∧
    Float64.isInt ⟨8514618045497345, -45⟩ = false ∧
    sum_price ⟨mkParams 100 20 10 2 50 1 0⟩ = none := by
  refine ⟨rfl, by decide, by decide, by decide⟩

/-- C4 counterexample: the structurally valid input `pricePerMeter=1,
marginPct=50`, all other leaves 0, has total `1.5` (exactly, in both the
rational and the float evaluation); `sum_price` returns no result on it
at all (the `sum: int` field of `PriceJsonSchemaSum` rejects the
non-integer float), refuting the claim that every structurally valid
input yields a result with the total rounded to 2 decimal places.
Moreover at `(100,20,10,2,50,1,0)` the exact total is the whole number
242 yet the float evaluation gives `242.00000000000003` and `sum_price`
again returns nothing — no rounding to 2 decimals happens anywhere. -/
theorem C4_counterexample :
    computeSum fractionalTotalParams = 3 / 2 ∧
    computeSumF fractionalTotalParams = some ⟨6755399441055744, -52⟩ ∧
    Float64.toQ ⟨6755399441055744, -52⟩ = 3 / 2 ∧
    sum_price ⟨fractionalTotalParams⟩ = none ∧
    computeSum (mkParams 100 20 10 2 50 1 0) = 242 ∧
    computeSumF (mkParams 100 20 10 2 50 1 0) = some ⟨8514618045497345, -45⟩ ∧
    sum_price ⟨mkParams 100 20 10 2 50 1 0⟩ = none := by
  refine ⟨?_, by decide, ?_, by decide, ?_, by decide, by decide⟩
  · unfold computeSum fractionalTotalParams mkParams
    norm_num
  · have ht : ((52 : ℤ)).toNat = 52 := rfl
    norm_num [Float64.toQ, ht]
  · unfold computeSum mkParams
    norm_num

/-- C4 amended: `sum_price` applies no rounding and declares `sum` as an
integer: whenever the float total the program computes is a whole
number, the result's `sum` is that float exactly (trivially equal to the
total rounded to 2 decimal places); any other outcome — a float total
with a fractional part (even when the exact decimal total is whole) or
an overflow — produces no result instead of a rounded one. -/
theorem C4_amended_integer_total_returned_exactly (body : PriceJsonSchema)
    (x : Float64) (hx : computeSumF body.parameters = some x)
    (hi : x.isInt = true) :
    sum_price body = some ⟨body.parameters, x.toInt⟩ ∧
    ((x.toInt : ℤ) : ℚ) = x.toQ ∧
    pythonRound2 x.toQ = x.toQ := by
  have h2 : ((x.toInt : ℤ) : ℚ) = x.toQ := Float64.toInt_eq_toQ x hi
  refine ⟨?_, h2, ?_⟩
  · unfold sum_price
    rw [hx]
    simp [hi]
  · rw [← h2, pythonRound2_int]

/-- C4 amended, witness at Scenario A, whose float total is exactly the
whole number 275 (mantissa `4837851162214400 = 275·2^44`). -/
theorem C4_amended_witness :
    computeSumF scenarioA = some ⟨4837851162214400, -44⟩ ∧
    Float64.isInt ⟨4837851162214400, -44⟩ = true ∧
    (sum_price ⟨scenarioA⟩ =
        some ⟨scenarioA, Float64.toInt ⟨4837851162214400, -44⟩⟩ ∧
      ((Float64.toInt ⟨4837851162214400, -44⟩ : ℤ) : ℚ) =
        Float64.toQ ⟨4837851162214400, -44⟩ ∧
      pythonRound2 (Float64.toQ ⟨4837851162214400, -44⟩) =
        Float64.toQ ⟨4837851162214400, -44⟩) :=
  ⟨by decide, by decide,
    C4_amended_integer_total_returned_exactly ⟨scenarioA⟩
      ⟨4837851162214400, -44⟩ (by decide) (by decide)⟩

/-- C5: with Scenario A's input but `ottomanFlat.count = 0` (Scenario E),
the computed total is `165.00`, exactly `2*50*1.10 = 110.00` less than
Scenario A's `275.00` — the fabric surcharge multiplies the combined
base-plus-extras subtotal. -/
theorem C5_scenarioE_extras_scaled_by_fabric :
    computeSum scenarioE = 165 ∧
    sum_price ⟨scenarioE⟩ = some ⟨scenarioE, 165⟩ ∧
    computeSum scenarioA - computeSum scenarioE = 110 ∧
    computeSum scenarioA - computeSum scenarioE = 2 * 50 * (1 + 10 / 100) := by
  have hE : computeSum scenarioE = 165 := by
    unfold computeSum scenarioE mkParams
    norm_num
  refine ⟨hE, by decide, ?_, ?_⟩ <;>
    rw [computeSum_scenarioA, hE] <;> norm_num

/-- C6 counterexample: a persisted record whose stored `parameters`
column value carries TWO `parameters` wrapper keys around Scenario A's
leaf document fails to decode (`PriceJsonSchema(parameters=dict(param))`
sees a document whose only key is `parameters` and misses the required
`extras`/`fabricPct`), so the listing aborts with a validation error and
produces no record at all — refuting the claim that such a record lists
with `sum == 275.00`. -/
theorem C6_counterexample :
    listOne ⟨"strategyA", storedScenarioADouble⟩ = none ∧
    get_all_prices [⟨"strategyA", storedScenarioADouble⟩] = none := by
  constructor
  · rfl
  · rfl

/-- C6 amended: for every persisted record whose stored `parameters`
column value wraps Scenario A's six leaf values in a single `parameters`
key (the `parameters.parameters` double nesting being the column
attribute plus that key), `get_all_prices` unwraps exactly that one extra
nesting level, produces a record with `sum == 275.00`, and carries the
stored `engine` string through to the output unchanged. -/
theorem C6_amended_single_wrap_lists_275 (e : String) :
    listOne ⟨e, storedScenarioA⟩ = some ⟨e, scenarioA, 275⟩ ∧
    get_all_prices [⟨e, storedScenarioA⟩] = some [⟨e, scenarioA, 275⟩] := by
  have hround : pythonRound2 (computeSum scenarioA) = 275 := by
    rw [computeSum_scenarioA]
    have h275 : ((275 : ℤ) : ℚ) = (275 : ℚ) := by norm_num
    rw [← h275, pythonRound2_int]
  have h0 : listOne ⟨e, storedScenarioA⟩ =
      some ⟨e, scenarioA, pythonRound2 (computeSum scenarioA)⟩ := rfl
  have h1 : listOne ⟨e, storedScenarioA⟩ = some ⟨e, scenarioA, 275⟩ := by
    rw [h0, hround]
  exact ⟨h1, by simp [get_all_prices, List.mapM, List.mapM.loop, h1]⟩

/-- C7: the quote computation is a pure function of the six leaf integers
of its input: two `PricingParameters` values agreeing on all six leaves
produce identical computed sums and identical `sum_price` results (in
particular, two invocations on the same input are identical). -/
theorem C7_result_depends_only_on_leaves (p q : parameters)
    (h1 : p.pricePerMeter = q.pricePerMeter)
    (h2 : p.marginPct = q.marginPct)
    (h3 : p.fabricPct.category = q.fabricPct.category)
    (h4 : p.extras.ottomanFlat.count = q.extras.ottomanFlat.count)
    (h5 : p.extras.ottomanFlat.price = q.extras.ottomanFlat.price)
    (h6 : p.extras.mechanismFlat.count = q.extras.mechanismFlat.count)
    (h7 : p.extras.mechanismFlat.price = q.extras.mechanismFlat.price) :
    computeSum p = computeSum q ∧ sum_price ⟨p⟩ = sum_price ⟨q⟩ := by
  obtain ⟨⟨⟨a1, a2⟩, ⟨a3, a4⟩⟩, ⟨a5⟩, a6, a7⟩ := p
  obtain ⟨⟨⟨b1, b2⟩, ⟨b3, b4⟩⟩, ⟨b5⟩, b6, b7⟩ := q
  simp_all [computeSum, sum_price]

/-- C7 witness: `scenarioA` and the positionally-built copy
`mkParams 100 20 10 2 50 1 30` agree on all six leaves, hence yield the
same computed sum and the same quote result. -/
theorem C7_witness :
    computeSum scenarioA = computeSum (mkParams 100 20 10 2 50 1 30) ∧
    sum_price ⟨scenarioA⟩ = sum_price ⟨mkParams 100 20 10 2 50 1 30⟩ :=
  C7_result_depends_only_on_leaves scenarioA (mkParams 100 20 10 2 50 1 30)
    rfl rfl rfl rfl rfl rfl rfl

/-- C8: `sum_price` is read-only with respect to persisted state: with
the database session made explicit as state, every call returns the state
it received unchanged (the source body never invokes the session), and
its result is exactly the pure computation on the request body. -/
theorem C8_sum_price_leaves_state_unchanged
    (db : List PricingPricingstrategy) (body : PriceJsonSchema) :
    (sum_price_session db body).1 = db ∧
    (sum_price_session db body).2 = sum_price body :=
  ⟨rfl, rfl⟩

/-- C9 counterexample: at the negative input with `pricePerMeter=-100`
and `ottomanFlat.price=-50` (rest as Scenario A), validation does
succeed — negativity is nowhere rejected — but the quote operation
produces NO result: the float evaluation gives `-209.00000000000003`
(mantissa `-7353533766565889·2^-45`, odd, hence non-integral) and the
int-typed `sum` field raises; this refutes the claim's universal "the
compute/quote operation produces a result". -/
theorem C9_counterexample :
    parsePriceJsonSchema (mkBodyJson (-100) 20 10 2 (-50) 1 30) =
      some ⟨negativeParams⟩ ∧
    computeSumF negativeParams = some ⟨-7353533766565889, -45⟩ ∧
    Float64.isInt ⟨-7353533766565889, -45⟩ = false ∧
    sum_price ⟨negativeParams⟩ = none := by
  refine ⟨rfl, by decide, by decide, by decide⟩

/-- C9 amended: negative values are never rejected and no `< 0` range
check exists anywhere: for every choice of the six leaf integers —
negative ones included — the canonical request body passes validation
unchanged, and the exact-arithmetic formula is applied without any
sign guard; whether a result is then returned depends only on the float
total's integrality, exactly as for non-negative inputs. Concretely,
with `fabricPct.category = 0` the negative input `pricePerMeter=-100,
ottomanFlat={2, -50}, mechanismFlat={1, 30}` validates and yields
`sum = -190`. -/
theorem C9_negative_values_accepted (ppm mp fc oc op mc mpr : ℤ) :
    parsePriceJsonSchema (mkBodyJson ppm mp fc oc op mc mpr) =
      some ⟨mkParams ppm mp fc oc op mc mpr⟩ ∧
    computeSum (mkParams ppm mp fc oc op mc mpr) =
      ((ppm : ℚ) * (((mp : ℚ) + 100) / 100)
        + ((oc : ℚ) * (op : ℚ) + (mc : ℚ) * (mpr : ℚ)))
      * (((fc : ℚ) + 100) / 100) ∧
    parsePriceJsonSchema (mkBodyJson (-100) 20 0 2 (-50) 1 30) =
      some ⟨negativeParamsFabric0⟩ ∧
    computeSumF negativeParamsFabric0 = some ⟨-6685030696878080, -45⟩ ∧
    sum_price ⟨negativeParamsFabric0⟩ =
      some ⟨negativeParamsFabric0, -190⟩ := by
  refine ⟨rfl, rfl, rfl, by decide, by decide⟩

/-- C10: the result field `sum` of `PriceJsonSchemaSum` is declared as an
integer, so `sum_price` returns normally exactly when the float total the
program computes exists (no overflow) and is a whole number; on
`pricePerMeter=1, marginPct=50`, rest 0, the float total is exactly `1.5`
and the construction fails instead of returning the total. -/
theorem C10_sum_field_is_int (body : PriceJsonSchema) :
    ((sum_price body).isSome = true ↔
      ∃ x, computeSumF body.parameters = some x ∧ x.isInt = true) ∧
    computeSumF fractionalTotalParams = some ⟨6755399441055744, -52⟩ ∧
    Float64.toQ ⟨6755399441055744, -52⟩ = 3 / 2 ∧
    Float64.isInt ⟨6755399441055744, -52⟩ = false ∧
    sum_price ⟨fractionalTotalParams⟩ = none := by
  refine ⟨?_, by decide, ?_, by decide, by decide⟩
  · constructor
    · intro h
      match hc : computeSumF body.parameters with
      | none => unfold sum_price at h; rw [hc] at h; simp at h
      | some x =>
        refine ⟨x, rfl, ?_⟩
        unfold sum_price at h
        rw [hc] at h
        by_cases hi : x.isInt = true
        · exact hi
        · simp [hi] at h
    · rintro ⟨x, hx, hi⟩
      unfold sum_price
      rw [hx]
      simp [hi]
  · have ht : ((52 : ℤ)).toNat = 52 := rfl
    norm_num [Float64.toQ, ht]
